import Mathlib

/-!
Verification of the BMW ConnectedDrive sensor platform
(`custom_components/bmw_connected_drive/sensor.py`).

The Python module is shallowly embedded: dictionaries become association
lists over `String`, the vehicle / vehicle-state objects become structures
whose dynamic-attribute surface is an association list (a missing key models
an `AttributeError`), `re.search` against the two literal-prefix patterns of
this module becomes an explicit scan over character lists, and the mutating
`update` method becomes a function returning an `UpdateResult` (new value,
silent return, or unhandled exception).
-/

set_option maxRecDepth 10000

/-! ### Definitions: the embedded module -/

/-- Python `dict.get k` on an insertion-ordered dictionary represented as an
association list: the value at the first entry whose key equals `k`. -/
def dictGet {α : Type} (d : List (String × α)) (k : String) : Option α :=
  match d with
  | [] => none
  | (k', v) :: rest => if k' == k then some v else dictGet rest k

/-- Python `d.update(e)`: entries of `d` whose key occurs in `e` are replaced
in place by `e`'s value; keys of `e` not present in `d` are appended in
`e`'s order. -/
def dictUpdate {α : Type} (d e : List (String × α)) : List (String × α) :=
  d.map (fun p => match dictGet e p.1 with | some v => (p.1, v) | none => p)
    ++ e.filter (fun p => (dictGet d p.1).isNone)

def CONF_UNIT_SYSTEM_IMPERIAL : String := "imperial"

def LENGTH_KILOMETERS : String := "km"

def LENGTH_MILES : String := "mi"

def PERCENTAGE : String := "%"

def TIME_HOURS : String := "h"

def TIME_MINUTES : String := "min"

def VOLUME_GALLONS : String := "gal"

def VOLUME_LITERS : String := "L"

def ENERGY_WATT_HOUR : String := "Wh"

def ENERGY_KILO_WATT_HOUR : String := "kWh"

def MASS_KILOGRAMS : String := "kg"

def SERVICE_STATUS : String := "STATUS"

def SERVICE_LAST_TRIP : String := "LAST_TRIP"

def SERVICE_ALL_TRIPS : String := "ALL_TRIPS"

def SERVICE_CHARGING_PROFILE : String := "CHARGING_PROFILE"

/-- The `bimmer_connected` library also exposes a destinations service constant; the
sensor module under verification never imports or mentions it. -/
def SERVICE_DESTINATIONS : String := "DESTINATIONS"

/-- A registry entry `[icon, unit]`: both components may be `None`. -/
abbrev IconUnit := Option String × Option String

/-- Table `ATTR_TO_HA_METRIC` as written in the source (before the module-level
`.update(ATTR_TO_HA_GENERIC)` call). -/
def ATTR_TO_HA_METRIC_initial : List (String × IconUnit) := [
  ("mileage", (some "mdi:speedometer", some LENGTH_KILOMETERS)),
  ("remaining_range_total", (some "mdi:map-marker-distance", some LENGTH_KILOMETERS)),
  ("remaining_range_electric", (some "mdi:map-marker-distance", some LENGTH_KILOMETERS)),
  ("remaining_range_fuel", (some "mdi:map-marker-distance", some LENGTH_KILOMETERS)),
  ("max_range_electric", (some "mdi:map-marker-distance", some LENGTH_KILOMETERS)),
  ("remaining_fuel", (some "mdi:gas-station", some VOLUME_LITERS)),
  ("average_combined_consumption", (some "mdi:flash", some (ENERGY_KILO_WATT_HOUR ++ "/100" ++ LENGTH_KILOMETERS))),
  ("average_electric_consumption", (some "mdi:power-plug-outline", some (ENERGY_KILO_WATT_HOUR ++ "/100" ++ LENGTH_KILOMETERS))),
  ("average_recuperation", (some "mdi:recycle-variant", some (ENERGY_KILO_WATT_HOUR ++ "/100" ++ LENGTH_KILOMETERS))),
  ("electric_distance", (some "mdi:map-marker-distance", some LENGTH_KILOMETERS)),
  ("saved_fuel", (some "mdi:fuel", some VOLUME_LITERS)),
  ("total_distance", (some "mdi:map-marker-distance", some LENGTH_KILOMETERS)),
  ("average_combined_consumption_community_average", (some "mdi:flash", some (ENERGY_KILO_WATT_HOUR ++ "/100" ++ LENGTH_KILOMETERS))),
  ("average_combined_consumption_community_high", (some "mdi:flash", some (ENERGY_KILO_WATT_HOUR ++ "/100" ++ LENGTH_KILOMETERS))),
  ("average_combined_consumption_community_low", (some "mdi:flash", some (ENERGY_KILO_WATT_HOUR ++ "/100" ++ LENGTH_KILOMETERS))),
  ("average_combined_consumption_user_average", (some "mdi:flash", some (ENERGY_KILO_WATT_HOUR ++ "/100" ++ LENGTH_KILOMETERS))),
  ("average_electric_consumption_community_average", (some "mdi:power-plug-outline", some (ENERGY_KILO_WATT_HOUR ++ "/100" ++ LENGTH_KILOMETERS))),
  ("average_electric_consumption_community_high", (some "mdi:power-plug-outline", some (ENERGY_KILO_WATT_HOUR ++ "/100" ++ LENGTH_KILOMETERS))),
  ("average_electric_consumption_community_low", (some "mdi:power-plug-outline", some (ENERGY_KILO_WATT_HOUR ++ "/100" ++ LENGTH_KILOMETERS))),
  ("average_electric_consumption_user_average", (some "mdi:power-plug-outline", some (ENERGY_KILO_WATT_HOUR ++ "/100" ++ LENGTH_KILOMETERS))),
  ("average_recuperation_community_average", (some "mdi:recycle-variant", some (ENERGY_KILO_WATT_HOUR ++ "/100" ++ LENGTH_KILOMETERS))),
  ("average_recuperation_community_high", (some "mdi:recycle-variant", some (ENERGY_KILO_WATT_HOUR ++ "/100" ++ LENGTH_KILOMETERS))),
  ("average_recuperation_community_low", (some "mdi:recycle-variant", some (ENERGY_KILO_WATT_HOUR ++ "/100" ++ LENGTH_KILOMETERS))),
  ("average_recuperation_user_average", (some "mdi:recycle-variant", some (ENERGY_KILO_WATT_HOUR ++ "/100" ++ LENGTH_KILOMETERS))),
  ("chargecycle_range_community_average", (some "mdi:map-marker-distance", some LENGTH_KILOMETERS)),
  ("chargecycle_range_community_high", (some "mdi:map-marker-distance", some LENGTH_KILOMETERS)),
  ("chargecycle_range_community_low", (some "mdi:map-marker-distance", some LENGTH_KILOMETERS)),
  ("chargecycle_range_user_average", (some "mdi:map-marker-distance", some LENGTH_KILOMETERS)),
  ("chargecycle_range_user_current_charge_cycle", (some "mdi:map-marker-distance", some LENGTH_KILOMETERS)),
  ("chargecycle_range_user_high", (some "mdi:map-marker-distance", some LENGTH_KILOMETERS)),
  ("total_electric_distance_community_average", (some "mdi:map-marker-distance", some LENGTH_KILOMETERS)),
  ("total_electric_distance_community_high", (some "mdi:map-marker-distance", some LENGTH_KILOMETERS)),
  ("total_electric_distance_community_low", (some "mdi:map-marker-distance", some LENGTH_KILOMETERS)),
  ("total_electric_distance_user_average", (some "mdi:map-marker-distance", some LENGTH_KILOMETERS)),
  ("total_electric_distance_user_total", (some "mdi:map-marker-distance", some LENGTH_KILOMETERS)),
  ("total_saved_fuel", (some "mdi:fuel", some VOLUME_LITERS))]

/-- Table `ATTR_TO_HA_IMPERIAL` as written in the source (before the module-level
`.update(ATTR_TO_HA_GENERIC)` call). -/
def ATTR_TO_HA_IMPERIAL_initial : List (String × IconUnit) := [
  ("mileage", (some "mdi:speedometer", some LENGTH_MILES)),
  ("remaining_range_total", (some "mdi:map-marker-distance", some LENGTH_MILES)),
  ("remaining_range_electric", (some "mdi:map-marker-distance", some LENGTH_MILES)),
  ("remaining_range_fuel", (some "mdi:map-marker-distance", some LENGTH_MILES)),
  ("max_range_electric", (some "mdi:map-marker-distance", some LENGTH_MILES)),
  ("remaining_fuel", (some "mdi:gas-station", some VOLUME_GALLONS)),
  ("average_combined_consumption", (some "mdi:flash", some (ENERGY_KILO_WATT_HOUR ++ "/100" ++ LENGTH_MILES))),
  ("average_electric_consumption", (some "mdi:power-plug-outline", some (ENERGY_KILO_WATT_HOUR ++ "/100" ++ LENGTH_MILES))),
  ("average_recuperation", (some "mdi:recycle-variant", some (ENERGY_KILO_WATT_HOUR ++ "/100" ++ LENGTH_MILES))),
  ("electric_distance", (some "mdi:map-marker-distance", some LENGTH_MILES)),
  ("saved_fuel", (some "mdi:fuel", some VOLUME_GALLONS)),
  ("total_distance", (some "mdi:map-marker-distance", some LENGTH_MILES)),
  ("average_combined_consumption_community_average", (some "mdi:flash", some (ENERGY_KILO_WATT_HOUR ++ "/100" ++ LENGTH_MILES))),
  ("average_combined_consumption_community_high", (some "mdi:flash", some (ENERGY_KILO_WATT_HOUR ++ "/100" ++ LENGTH_MILES))),
  ("average_combined_consumption_community_low", (some "mdi:flash", some (ENERGY_KILO_WATT_HOUR ++ "/100" ++ LENGTH_MILES))),
  ("average_combined_consumption_user_average", (some "mdi:flash", some (ENERGY_KILO_WATT_HOUR ++ "/100" ++ LENGTH_MILES))),
  ("average_electric_consumption_community_average", (some "mdi:power-plug-outline", some (ENERGY_KILO_WATT_HOUR ++ "/100" ++ LENGTH_MILES))),
  ("average_electric_consumption_community_high", (some "mdi:power-plug-outline", some (ENERGY_KILO_WATT_HOUR ++ "/100" ++ LENGTH_MILES))),
  ("average_electric_consumption_community_low", (some "mdi:power-plug-outline", some (ENERGY_KILO_WATT_HOUR ++ "/100" ++ LENGTH_MILES))),
  ("average_electric_consumption_user_average", (some "mdi:power-plug-outline", some (ENERGY_KILO_WATT_HOUR ++ "/100" ++ LENGTH_MILES))),
  ("average_recuperation_community_average", (some "mdi:recycle-variant", some (ENERGY_KILO_WATT_HOUR ++ "/100" ++ LENGTH_MILES))),
  ("average_recuperation_community_high", (some "mdi:recycle-variant", some (ENERGY_KILO_WATT_HOUR ++ "/100" ++ LENGTH_MILES))),
  ("average_recuperation_community_low", (some "mdi:recycle-variant", some (ENERGY_KILO_WATT_HOUR ++ "/100" ++ LENGTH_MILES))),
  ("average_recuperation_user_average", (some "mdi:recycle-variant", some (ENERGY_KILO_WATT_HOUR ++ "/100" ++ LENGTH_MILES))),
  ("chargecycle_range_community_average", (some "mdi:map-marker-distance", some LENGTH_MILES)),
  ("chargecycle_range_community_high", (some "mdi:map-marker-distance", some LENGTH_MILES)),
  ("chargecycle_range_community_low", (some "mdi:map-marker-distance", some LENGTH_MILES)),
  ("chargecycle_range_user_average", (some "mdi:map-marker-distance", some LENGTH_MILES)),
  ("chargecycle_range_user_current_charge_cycle", (some "mdi:map-marker-distance", some LENGTH_MILES)),
  ("chargecycle_range_user_high", (some "mdi:map-marker-distance", some LENGTH_MILES)),
  ("total_electric_distance_community_average", (some "mdi:map-marker-distance", some LENGTH_MILES)),
  ("total_electric_distance_community_high", (some "mdi:map-marker-distance", some LENGTH_MILES)),
  ("total_electric_distance_community_low", (some "mdi:map-marker-distance", some LENGTH_MILES)),
  ("total_electric_distance_user_average", (some "mdi:map-marker-distance", some LENGTH_MILES)),
  ("total_electric_distance_user_total", (some "mdi:map-marker-distance", some LENGTH_MILES)),
  ("total_saved_fuel", (some "mdi:fuel", some VOLUME_GALLONS))]

/-- Table `ATTR_TO_HA_GENERIC`, the unit-agnostic table. -/
def ATTR_TO_HA_GENERIC : List (String × IconUnit) := [
  ("charging_time_remaining", (some "mdi:update", some TIME_HOURS)),
  ("charging_status", (some "mdi:battery-charging", none)),
  ("charging_level_hv", (none, some PERCENTAGE)),
  ("date", (some "mdi:calendar-blank", none)),
  ("duration", (some "mdi:timer-outline", some TIME_MINUTES)),
  ("electric_distance_ratio", (some "mdi:percent-outline", some PERCENTAGE)),
  ("battery_size_max", (some "mdi:battery-charging-high", some ENERGY_WATT_HOUR)),
  ("reset_date", (some "mdi:calendar-blank", none)),
  ("saved_co2", (some "mdi:tree-outline", some MASS_KILOGRAMS)),
  ("saved_co2_green_energy", (some "mdi:tree-outline", some MASS_KILOGRAMS)),
  ("is_pre_entry_climatization_enabled", (some "mdi:snowflake", none)),
  ("preferred_charging_window_start_time", (some "mdi:dock-window", none)),
  ("preferred_charging_window_end_time", (some "mdi:dock-window", none)),
  ("pre_entry_climatization_timer_1_timer_enabled", (some "mdi:av-timer", none)),
  ("pre_entry_climatization_timer_1_departure_time", (some "mdi:av-timer", none)),
  ("pre_entry_climatization_timer_1_weekdays", (some "mdi:av-timer", none)),
  ("pre_entry_climatization_timer_2_timer_enabled", (some "mdi:av-timer", none)),
  ("pre_entry_climatization_timer_2_departure_time", (some "mdi:av-timer", none)),
  ("pre_entry_climatization_timer_2_weekdays", (some "mdi:av-timer", none)),
  ("pre_entry_climatization_timer_3_timer_enabled", (some "mdi:av-timer", none)),
  ("pre_entry_climatization_timer_3_departure_time", (some "mdi:av-timer", none)),
  ("pre_entry_climatization_timer_3_weekdays", (some "mdi:av-timer", none))]

/-- The metric table after the module-level `ATTR_TO_HA_METRIC.update(ATTR_TO_HA_GENERIC)`. -/
def ATTR_TO_HA_METRIC : List (String × IconUnit) :=
  dictUpdate ATTR_TO_HA_METRIC_initial ATTR_TO_HA_GENERIC

/-- The imperial table after the module-level `ATTR_TO_HA_IMPERIAL.update(ATTR_TO_HA_GENERIC)`. -/
def ATTR_TO_HA_IMPERIAL : List (String × IconUnit) :=
  dictUpdate ATTR_TO_HA_IMPERIAL_initial ATTR_TO_HA_GENERIC

/-- A Python value as it appears on the vehicle-state objects: a string, a
number, `None`, an enum member (carrying its `.value` string), a plain object
with named attributes, a dict keyed by timer-type enum members (each key
carrying its `.value` string, each entry an object), or an `int` produced by
`round`. -/
inductive Val where
  | vStr : String → Val
  | vNum : ℚ → Val
  | vInt : ℤ → Val
  | vNone : Val
  | vEnum : String → Val
  | vObj : List (String × Val) → Val
  | vTimerDict : List (String × List (String × Val)) → Val

/-- Python `getattr` with a dynamic attribute name on a plain object: only objects
expose named sub-attributes; on any other value the access raises
`AttributeError` (modelled as `none`). -/
def objGetattr (v : Val) (k : String) : Option Val :=
  match v with
  | Val.vObj fields => dictGet fields k
  | _ => none

/-- The in-memory snapshot `vehicle.state` together with its `last_trip`,
`all_trips` and `charging_profile` sub-objects.  Dynamic attributes are
association lists; a missing key models an `AttributeError` on `getattr`.
`charging_status` is a property that is always defined on the library's
state class (it yields `None` when the backend sent no data), so it is a
total field. -/
structure VehicleState where
  charging_status : Val
  fields : List (String × Val)
  last_trip : List (String × Val)
  all_trips : List (String × Val)
  charging_profile : List (String × Val)

/-- Python `getattr(vehicle_state, k)` on the top-level state object. -/
def vsGetattr (st : VehicleState) (k : String) : Option Val :=
  if k == "charging_status" then some st.charging_status else dictGet st.fields k

/-- The discovery surface of one configured vehicle, as read by
`async_setup_entry`: `vehicle.available_state_services`,
`vehicle.drive_train_attributes`, `vehicle.available_attributes`, and the
`available_attributes` lists of `vehicle.state.last_trip`,
`vehicle.state.all_trips` and `vehicle.state.charging_profile`.
`destinations_available_attributes` models the attribute set the destinations
remote service reports (per the spec's discovery surface); the source module
never reads it. -/
structure Vehicle where
  name : String
  vin : String
  available_state_services : List String
  drive_train_attributes : List String
  available_attributes : List String
  last_trip_available_attributes : List String
  all_trips_available_attributes : List String
  charging_profile_available_attributes : List String
  destinations_available_attributes : List String

/-- One sensor entity: the fields stored by `BMWConnectedDriveSensor.__init__`. -/
structure BMWConnectedDriveSensor where
  vehicle : Vehicle
  attribute_name : String
  service : Option String
  state : Option Val
  name : String
  uniqueId : String
  attribute_info : List (String × IconUnit)

/-- Python `str.lower()` (the service names lowered here are ASCII). -/
def pyLower (s : String) : String := String.mk (s.data.map Char.toLower)

/-- The `_unique_id` computed in `__init__`: with a truthy service,
`f"{vin}-{service.lower()}-{attribute}"`, otherwise `f"{vin}-{attribute}"`. -/
def uidOf (vin : String) (service : Option String) (attribute_name : String) : String :=
  match service with
  | some svc =>
    if svc.isEmpty then vin ++ "-" ++ attribute_name
    else vin ++ "-" ++ pyLower svc ++ "-" ++ attribute_name
  | none => vin ++ "-" ++ attribute_name

/-- The `_name` computed in `__init__`. -/
def nameOf (vehicleName : String) (service : Option String) (attribute_name : String) : String :=
  match service with
  | some svc =>
    if svc.isEmpty then vehicleName ++ " " ++ attribute_name
    else vehicleName ++ " " ++ pyLower svc ++ "_" ++ attribute_name
  | none => vehicleName ++ " " ++ attribute_name

/-- Constructor `BMWConnectedDriveSensor.__init__`: cached `_state` starts as `None`. -/
def mkSensor (vehicle : Vehicle) (attribute_name : String)
    (attribute_info : List (String × IconUnit)) (service : Option String) :
    BMWConnectedDriveSensor :=
  { vehicle, attribute_name, service, attribute_info, state := none,
    name := nameOf vehicle.name service attribute_name,
    uniqueId := uidOf vehicle.vin service attribute_name }

/-- The `unit_of_measurement` property: `attribute_info.get(attribute, [None, None])[1]`. -/
def BMWConnectedDriveSensor.unit_of_measurement (s : BMWConnectedDriveSensor) :
    Option String :=
  ((dictGet s.attribute_info s.attribute_name).getD (none, none)).2

/-- The test `vehicle_state.charging_status in [ChargingState.CHARGING]`. -/
def isChargingVal (v : Val) : Bool :=
  match v with
  | Val.vEnum s => s == "CHARGING"
  | _ => false

/-- The `icon` property.  `icon_for_battery_level` is a host helper and is a
parameter; it receives the `charging_level_hv` attribute and the charging
flag. -/
def BMWConnectedDriveSensor.icon (s : BMWConnectedDriveSensor) (st : VehicleState)
    (iconForBatteryLevel : Option Val → Bool → Option String) : Option String :=
  let charging_state := isChargingVal st.charging_status
  if s.attribute_name == "charging_level_hv" then
    iconForBatteryLevel (vsGetattr st "charging_level_hv") charging_state
  else
    ((dictGet s.attribute_info s.attribute_name).getD (none, none)).1

/-- Python `round` on an exact rational: round half to even.  With
`f = ⌊q⌋` the fractional part is `(q.num - f * q.den) / q.den`; comparing it
with `1/2` by cross-multiplication (the denominator is positive) keeps the
whole computation in `ℤ`. -/
def pythonRound (q : ℚ) : ℤ :=
  let f : ℤ := q.floor
  let t : ℤ := 2 * (q.num - f * q.den)
  if t < q.den then f
  else if (q.den : ℤ) < t then f + 1
  else if f % 2 = 0 then f else f + 1

/-- Model of `re.search(f"({lit})_(.+)", s)` for a literal `lit` without regex
metacharacters, on the character list of `s`: scan start positions left to
right; at the first position where `lit` followed by `_` and at least one
further character matches, group 2 is everything after that underscore
(`.+` is greedy and unconstrained afterwards). -/
def reSearchSub (lit : List Char) : List Char → Option (List Char)
  | [] => none
  | c :: cs =>
    if (lit ++ ['_']).isPrefixOf (c :: cs) ∧ lit.length + 1 < (c :: cs).length then
      some ((c :: cs).drop (lit.length + 1))
    else reSearchSub lit cs

/-- Model of `re.search(f"({lit})_(\d)_(.+)", s)`: at the first start position where
`lit` then `_` then one digit then `_` then at least one character matches,
return that digit (group 2) and the rest (group 3). -/
def reSearchTimerSub (lit : List Char) : List Char → Option (Char × List Char)
  | [] => none
  | c :: cs =>
    match (if (lit ++ ['_']).isPrefixOf (c :: cs)
           then some ((c :: cs).drop (lit.length + 1)) else none) with
    | some (d :: e :: rest) =>
      if d.isDigit ∧ e = '_' ∧ rest ≠ [] then some (d, rest)
      else reSearchTimerSub lit cs
    | _ => reSearchTimerSub lit cs

/-- Groups 1 is the literal itself; return group 2 as a string. -/
def reSearchGroup2 (lit s : String) : Option String :=
  (reSearchSub lit.data s.data).map String.mk

/-- Return groups 2 (the digit) and 3 as strings. -/
def reSearchTimer (lit s : String) : Option (Char × String) :=
  (reSearchTimerSub lit.data s.data).map (fun p => (p.1, String.mk p.2))

/-- Result of one `update` call on the mutable `_state`: a new value was
assigned, the method returned without assigning, or an exception escaped. -/
inductive UpdateResult where
  | ok : Val → UpdateResult
  | noChange : UpdateResult
  | error : UpdateResult

/-- The caller-visible effect of `update` on the cached `_state`: an
assignment replaces it; a silent return or an escaped exception leaves it
unchanged. -/
def applyUpdate (cached : Option Val) : UpdateResult → Option Val
  | UpdateResult.ok v => some v
  | UpdateResult.noChange => cached
  | UpdateResult.error => cached

/-- The tuple of statistical-aggregate attribute names that appears (twice,
verbatim) in the source: in the all-trips arm of `async_setup_entry` and in
the all-trips arm of `update`. -/
def statAttrList : List String :=
  ["average_combined_consumption", "average_electric_consumption",
   "average_recuperation", "chargecycle_range", "total_electric_distance"]

/-- The `SERVICE_ALL_TRIPS` arm of `update`: try each aggregate name's regex
in order; on the first match read the aggregate object and its sub-attribute
and return; if none matches, read the attribute directly. -/
def allTripsBranch (all_trips : List (String × Val)) (attribute_name : String) :
    List String → UpdateResult
  | [] =>
    match dictGet all_trips attribute_name with
    | some v => UpdateResult.ok v
    | none => UpdateResult.error
  | a :: rest =>
    match reSearchGroup2 a attribute_name with
    | some sub_attr =>
      match dictGet all_trips a with
      | some base =>
        match objGetattr base sub_attr with
        | some v => UpdateResult.ok v
        | none => UpdateResult.error
      | none => UpdateResult.error
    | none => allTripsBranch all_trips attribute_name rest

/-- The loop `for timer in attr: if timer.value == timer_id: ...` followed by
the bare `return`: scan the timer dict in order; at the first key whose
`.value` equals `timer_id`, read `sub_attr` off its entry and return; if no
key matches, return without assigning. -/
def findTimerUpdate (timers : List (String × List (String × Val)))
    (timer_id sub_attr : String) : UpdateResult :=
  match timers with
  | [] => UpdateResult.noChange
  | (k, entry) :: rest =>
    if k == timer_id then
      match dictGet entry sub_attr with
      | some v => UpdateResult.ok v
      | none => UpdateResult.error
    else findTimerUpdate rest timer_id sub_attr

/-- The `SERVICE_CHARGING_PROFILE` arm of `update`. -/
def chargingProfileBranch (cp : List (String × Val)) (attribute_name : String) :
    UpdateResult :=
  match reSearchGroup2 "preferred_charging_window" attribute_name with
  | some sub_attr =>
    match dictGet cp "preferred_charging_window" with
    | some base =>
      match objGetattr base sub_attr with
      | some v => UpdateResult.ok v
      | none => UpdateResult.error
    | none => UpdateResult.error
  | none =>
    match reSearchTimer "pre_entry_climatization_timer" attribute_name with
    | some (d, sub_attr) =>
      match dictGet cp "pre_entry_climatization_timer" with
      | some (Val.vTimerDict timers) =>
        findTimerUpdate timers ("timer" ++ String.mk [d]) sub_attr
      | some _ => UpdateResult.error
      | none => UpdateResult.error
    | none =>
      match dictGet cp attribute_name with
      | some v => UpdateResult.ok v
      | none => UpdateResult.error

/-- Method `BMWConnectedDriveSensor.update`.  Here `volumeConv` and `lengthConv` are the
host helpers `hass.config.units.volume(·, VOLUME_LITERS)` and
`hass.config.units.length(·, LENGTH_KILOMETERS)`; both raise on a
non-numeric argument, which the model folds into the non-numeric match arm. -/
def BMWConnectedDriveSensor.update (s : BMWConnectedDriveSensor)
    (volumeConv lengthConv : ℚ → ℚ) (st : VehicleState) : UpdateResult :=
  if s.attribute_name == "charging_status" then
    match vsGetattr st s.attribute_name with
    | some (Val.vEnum v) => UpdateResult.ok (Val.vStr v)
    | _ => UpdateResult.error
  else if s.unit_of_measurement == some VOLUME_GALLONS then
    match vsGetattr st s.attribute_name with
    | some (Val.vNum x) => UpdateResult.ok (Val.vInt (pythonRound (volumeConv x)))
    | _ => UpdateResult.error
  else if s.unit_of_measurement == some LENGTH_MILES then
    match vsGetattr st s.attribute_name with
    | some (Val.vNum x) => UpdateResult.ok (Val.vInt (pythonRound (lengthConv x)))
    | _ => UpdateResult.error
  else
    match s.service with
    | none =>
      match vsGetattr st s.attribute_name with
      | some v => UpdateResult.ok v
      | none => UpdateResult.error
    | some svc =>
      if svc == SERVICE_LAST_TRIP then
        match dictGet st.last_trip s.attribute_name with
        | some v => UpdateResult.ok v
        | none => UpdateResult.error
      else if svc == SERVICE_ALL_TRIPS then
        allTripsBranch st.all_trips s.attribute_name statAttrList
      else if svc == SERVICE_CHARGING_PROFILE then
        chargingProfileBranch st.charging_profile s.attribute_name
      else UpdateResult.noChange

/-- The `SERVICE_STATUS` arm of `async_setup_entry`: one sensor per
drive-train attribute also present in `vehicle.available_attributes`,
constructed without a service tag. -/
def statusEntities (info : List (String × IconUnit)) (v : Vehicle) :
    List BMWConnectedDriveSensor :=
  (v.drive_train_attributes.filter (fun a => v.available_attributes.contains a)).map
    (fun a => mkSensor v a info none)

/-- The expansion of one all-trips attribute: statistical aggregates fan out
into community/user sub-fields (with two extra sub-fields for
`chargecycle_range` and one for `total_electric_distance`); every other
attribute yields a single sensor. -/
def allTripsExpandAttr (info : List (String × IconUnit)) (v : Vehicle)
    (svc : String) (a : String) : List BMWConnectedDriveSensor :=
  if statAttrList.contains a then
    (["community_average", "community_high", "community_low", "user_average"].map
      (fun sub => mkSensor v (a ++ "_" ++ sub) info (some svc)))
    ++ (if a == "chargecycle_range" then
          ["user_current_charge_cycle", "user_high"].map
            (fun sub => mkSensor v (a ++ "_" ++ sub) info (some svc))
        else [])
    ++ (if a == "total_electric_distance" then
          ["user_total"].map (fun sub => mkSensor v (a ++ "_" ++ sub) info (some svc))
        else [])
  else [mkSensor v a info (some svc)]

/-- The expansion of one charging-profile attribute: the charging window fans
out into start/end time, the climatization timer into `range(1, 4)` timer
numbers times three sub-fields; every other attribute yields a single
sensor. -/
def chargingProfileExpandAttr (info : List (String × IconUnit)) (v : Vehicle)
    (svc : String) (a : String) : List BMWConnectedDriveSensor :=
  if a == "preferred_charging_window" then
    ["start_time", "end_time"].map (fun sub => mkSensor v (a ++ "_" ++ sub) info (some svc))
  else if a == "pre_entry_climatization_timer" then
    ([1, 2, 3] : List Nat).flatMap (fun timer =>
      ["timer_enabled", "departure_time", "weekdays"].map
        (fun sub => mkSensor v (a ++ "_" ++ toString timer ++ "_" ++ sub) info (some svc)))
  else [mkSensor v a info (some svc)]

/-- One iteration of `for service in vehicle.available_state_services`: the
four `if service == ...` blocks, appended in source order (at most one is
non-empty for any service value, since the four constants differ). -/
def serviceEntities (info : List (String × IconUnit)) (v : Vehicle) (service : String) :
    List BMWConnectedDriveSensor :=
  (if service == SERVICE_STATUS then statusEntities info v else [])
  ++ (if service == SERVICE_LAST_TRIP then
        v.last_trip_available_attributes.map (fun a => mkSensor v a info (some service))
      else [])
  ++ (if service == SERVICE_ALL_TRIPS then
        v.all_trips_available_attributes.flatMap (allTripsExpandAttr info v service)
      else [])
  ++ (if service == SERVICE_CHARGING_PROFILE then
        v.charging_profile_available_attributes.flatMap (chargingProfileExpandAttr info v service)
      else [])

/-- All entities created for one vehicle. -/
def setupEntitiesForVehicle (info : List (String × IconUnit)) (v : Vehicle) :
    List BMWConnectedDriveSensor :=
  v.available_state_services.flatMap (serviceEntities info v)

/-- The table selection at the top of `async_setup_entry`:
`hass.config.units.name == CONF_UNIT_SYSTEM_IMPERIAL` picks the imperial
table, anything else the metric table. -/
def selectedTable (unitsName : String) : List (String × IconUnit) :=
  if unitsName == CONF_UNIT_SYSTEM_IMPERIAL then ATTR_TO_HA_IMPERIAL
  else ATTR_TO_HA_METRIC

/-- Entry point `async_setup_entry`: select the attribute table from the configured unit
system name, then create the entities of every configured vehicle. -/
def async_setup_entry (unitsName : String) (vehicles : List Vehicle) :
    List BMWConnectedDriveSensor :=
  vehicles.flatMap (setupEntitiesForVehicle (selectedTable unitsName))

/-- Multiplication of a rational by a concrete conversion ratio `n / d`,
written on numerator and denominator (`Rat.mul` is `@[irreducible]`, so this
form keeps concrete instances computable). -/
def timesRatio (n : ℤ) (d : ℕ) (y : ℚ) : ℚ := mkRat (y.num * n) (y.den * d)

/-- No `-` character occurs in the string.  Real VINs and the attribute
names reported by the vehicle API are `-`-free. -/
def noHyphen (s : String) : Prop := '-' ∉ s.data

instance (s : String) : Decidable (noHyphen s) :=
  inferInstanceAs (Decidable ('-' ∉ s.data))

/-- The service tags with which `async_setup_entry` constructs sensors. -/
def factoryService (so : Option String) : Prop :=
  so = none ∨ so = some SERVICE_LAST_TRIP ∨ so = some SERVICE_ALL_TRIPS ∨
  so = some SERVICE_CHARGING_PROFILE

/-- All attribute names the vehicle's discovery surface reports are free of
the `-` separator (true of the upstream vehicle API, whose attribute names
are Python identifiers). -/
def cleanAttrs (v : Vehicle) : Prop :=
  (∀ a ∈ v.drive_train_attributes, noHyphen a) ∧
  (∀ a ∈ v.last_trip_available_attributes, noHyphen a) ∧
  (∀ a ∈ v.all_trips_available_attributes, noHyphen a) ∧
  (∀ a ∈ v.charging_profile_available_attributes, noHyphen a)

instance (v : Vehicle) : Decidable (cleanAttrs v) :=
  inferInstanceAs (Decidable ((∀ a ∈ v.drive_train_attributes, noHyphen a) ∧
    (∀ a ∈ v.last_trip_available_attributes, noHyphen a) ∧
    (∀ a ∈ v.all_trips_available_attributes, noHyphen a) ∧
    (∀ a ∈ v.charging_profile_available_attributes, noHyphen a)))

/-- The nine flattened climatization-timer keys, in factory order. -/
def timerKeys9 : List String :=
  ["pre_entry_climatization_timer_1_timer_enabled",
   "pre_entry_climatization_timer_1_departure_time",
   "pre_entry_climatization_timer_1_weekdays",
   "pre_entry_climatization_timer_2_timer_enabled",
   "pre_entry_climatization_timer_2_departure_time",
   "pre_entry_climatization_timer_2_weekdays",
   "pre_entry_climatization_timer_3_timer_enabled",
   "pre_entry_climatization_timer_3_departure_time",
   "pre_entry_climatization_timer_3_weekdays"]

/-- A sensor entity counted by the timer-expansion property: a
charging-profile sensor carrying one of the nine flattened timer keys. -/
def isTimerSensor (s : BMWConnectedDriveSensor) : Bool :=
  s.service == some SERVICE_CHARGING_PROFILE && timerKeys9.contains s.attribute_name

def countTimer (l : List BMWConnectedDriveSensor) : Nat :=
  (l.filter isTimerSensor).length

/-- A vehicle whose only enabled remote service is the destinations service,
which reports one available attribute. -/
def destOnlyVehicle : Vehicle :=
  { name := "i3 94 REX", vin := "WBY1Z81040V111111",
    available_state_services := [SERVICE_DESTINATIONS],
    drive_train_attributes := [], available_attributes := [],
    last_trip_available_attributes := [], all_trips_available_attributes := [],
    charging_profile_available_attributes := [],
    destinations_available_attributes := ["single_destination"] }

/-- A vehicle with only the status service and two drive-train attributes. -/
def statusOnlyVehicle : Vehicle :=
  { name := "i3 120", vin := "WBY8P210X07222222",
    available_state_services := [SERVICE_STATUS],
    drive_train_attributes := ["mileage", "remaining_fuel"],
    available_attributes := ["mileage", "remaining_fuel"],
    last_trip_available_attributes := [], all_trips_available_attributes := [],
    charging_profile_available_attributes := [],
    destinations_available_attributes := [] }

/-- A vehicle whose charging-profile service reports the charging window and
the climatization timer. -/
def demoVehicle : Vehicle :=
  { name := "530e", vin := "WBAJA9C50KB333333",
    available_state_services :=
      [SERVICE_STATUS, SERVICE_LAST_TRIP, SERVICE_ALL_TRIPS, SERVICE_CHARGING_PROFILE],
    drive_train_attributes := ["mileage", "remaining_fuel", "charging_status"],
    available_attributes := ["mileage", "remaining_fuel", "charging_status"],
    last_trip_available_attributes := ["date", "duration"],
    all_trips_available_attributes := ["reset_date", "chargecycle_range"],
    charging_profile_available_attributes :=
      ["preferred_charging_window", "pre_entry_climatization_timer",
       "is_pre_entry_climatization_enabled"],
    destinations_available_attributes := [] }

/-- The timer dict the demo state reports: all three timers present. -/
def demoTimerDict : List (String × List (String × Val)) :=
  [("timer1", [("timer_enabled", Val.vStr "True"),
               ("departure_time", Val.vStr "07:30"),
               ("weekdays", Val.vStr "MONDAY")]),
   ("timer2", [("timer_enabled", Val.vStr "False"),
               ("departure_time", Val.vStr "08:15"),
               ("weekdays", Val.vStr "TUESDAY")]),
   ("timer3", [("timer_enabled", Val.vStr "True"),
               ("departure_time", Val.vStr "09:00"),
               ("weekdays", Val.vStr "SUNDAY")])]

/-- A timer dict that only reports `timer1`. -/
def sparseTimerDict : List (String × List (String × Val)) :=
  [("timer1", [("timer_enabled", Val.vStr "True"),
               ("departure_time", Val.vStr "06:45"),
               ("weekdays", Val.vStr "FRIDAY")])]

/-- A state snapshot: charging window `22:00`–`06:00`, all three timers
present with distinct sub-field values. -/
def demoState : VehicleState :=
  { charging_status := Val.vEnum "CHARGING",
    fields := [("mileage", Val.vNum (mkRat 24321 1)),
               ("remaining_fuel", Val.vNum (mkRat 189 5)),
               ("charging_level_hv", Val.vNum (mkRat 87 1))],
    last_trip := [("date", Val.vStr "2020-09-01T12:00:00+0200"),
                  ("duration", Val.vNum (mkRat 42 1))],
    all_trips := [("reset_date", Val.vStr "2020-01-01T00:00:00+0100"),
                  ("chargecycle_range", Val.vObj
                    [("community_average", Val.vNum (mkRat 48 1)),
                     ("community_high", Val.vNum (mkRat 99 1)),
                     ("community_low", Val.vNum (mkRat 1 1)),
                     ("user_average", Val.vNum (mkRat 52 1)),
                     ("user_current_charge_cycle", Val.vNum (mkRat 12 1)),
                     ("user_high", Val.vNum (mkRat 70 1))])],
    charging_profile :=
      [("is_pre_entry_climatization_enabled", Val.vStr "True"),
       ("preferred_charging_window", Val.vObj
         [("start_time", Val.vStr "22:00"), ("end_time", Val.vStr "06:00")]),
       ("pre_entry_climatization_timer", Val.vTimerDict demoTimerDict)] }

/-- A state snapshot whose timer dict only reports `timer1`. -/
def sparseTimerState : VehicleState :=
  { charging_status := Val.vNone,
    fields := [],
    last_trip := [],
    all_trips := [],
    charging_profile :=
      [("preferred_charging_window", Val.vObj
         [("start_time", Val.vStr "23:00"), ("end_time", Val.vStr "05:00")]),
       ("pre_entry_climatization_timer", Val.vTimerDict sparseTimerDict)] }

/-- A state snapshot with no data at all. -/
def emptyState : VehicleState :=
  { charging_status := Val.vNone, fields := [], last_trip := [],
    all_trips := [], charging_profile := [] }

/-! ### Helper lemmas and claim theorems -/

theorem dictGet_append {α : Type} (l1 l2 : List (String × α)) (k : String) :
    dictGet (l1 ++ l2) k =
      match dictGet l1 k with
      | some v => some v
      | none => dictGet l2 k := by
  induction l1 with
  | nil => simp [dictGet]
  | cons p rest ih =>
    obtain ⟨k', v⟩ := p
    cases hk : k' == k <;> simp [dictGet, hk, ih]

theorem dictGet_map_upd {α : Type} (e d : List (String × α)) (k : String) :
    dictGet (d.map (fun p =>
        match dictGet e p.1 with | some v => (p.1, v) | none => p)) k
      = (dictGet d k).map (fun w => (dictGet e k).getD w) := by
  induction d with
  | nil => simp [dictGet]
  | cons p rest ih =>
    obtain ⟨k', w'⟩ := p
    cases hk : k' == k
    · cases he : dictGet e k' <;> simp [dictGet, he, hk, ih]
    · have hkk : k' = k := by simpa using hk
      subst hkk
      cases he : dictGet e k' <;> simp [dictGet, he, hk]

theorem dictGet_filter_new {α : Type} (d e : List (String × α)) (k : String) :
    dictGet (e.filter (fun p => (dictGet d p.1).isNone)) k
      = if (dictGet d k).isNone then dictGet e k else none := by
  induction e with
  | nil => simp [dictGet]
  | cons p rest ih =>
    obtain ⟨k', v⟩ := p
    cases hk : k' == k
    · cases hd : (dictGet d k').isNone <;> simp [dictGet, hd, hk, ih]
    · have hkk : k' = k := by simpa using hk
      subst hkk
      cases hd : (dictGet d k').isNone <;> simp [dictGet, hd, hk, ih]

theorem dictGet_dictUpdate {α : Type} (d e : List (String × α)) (k : String) :
    dictGet (dictUpdate d e) k =
      match dictGet e k with
      | some v => some v
      | none => dictGet d k := by
  unfold dictUpdate
  rw [dictGet_append, dictGet_map_upd, dictGet_filter_new]
  cases hd : dictGet d k <;> cases he : dictGet e k <;> simp [hd, he]

theorem noHyphen_append {x y : String} :
    noHyphen (x ++ y) ↔ noHyphen x ∧ noHyphen y := by
  simp [noHyphen, String.data_append, not_or]

theorem string_eq_of_data {s t : String} (h : s.data = t.data) : s = t := by
  cases s
  cases t
  simp only at h
  rw [h]

/-- Splitting at a separator that occurs in neither left part is unique. -/
theorem hyphen_split {x y u w : List Char} (hx : '-' ∉ x) (hy : '-' ∉ y)
    (h : x ++ '-' :: u = y ++ '-' :: w) : x = y ∧ u = w := by
  induction x generalizing y with
  | nil =>
    cases y with
    | nil => simpa using h
    | cons b ys =>
      exfalso
      have hb : b = '-' := by
        have := congrArg (fun l => l.head?) h
        simp at this
        exact this.symm
      exact hy (by simp [hb])
  | cons a xs ih =>
    cases y with
    | nil =>
      exfalso
      have ha : a = '-' := by
        have := congrArg (fun l => l.head?) h
        simp at this
        exact this
      exact hx (by simp [ha])
    | cons b ys =>
      simp only [List.cons_append, List.cons.injEq] at h
      obtain ⟨hab, htail⟩ := h
      have hx' : '-' ∉ xs := fun hmem => hx (List.mem_cons_of_mem _ hmem)
      have hy' : '-' ∉ ys := fun hmem => hy (List.mem_cons_of_mem _ hmem)
      obtain ⟨h1, h2⟩ := ih hx' hy' htail
      exact ⟨by simp [hab, h1], h2⟩

theorem count_hyphen_two_parts {x u : List Char} (hx : '-' ∉ x) (hu : '-' ∉ u) :
    (x ++ '-' :: u).count '-' = 1 := by
  simp [List.count_append, List.count_eq_zero.mpr hx, List.count_eq_zero.mpr hu]

theorem count_hyphen_three_parts {x y u : List Char}
    (hx : '-' ∉ x) (hy : '-' ∉ y) (hu : '-' ∉ u) :
    (x ++ '-' :: (y ++ '-' :: u)).count '-' = 2 := by
  simp [List.count_append, List.count_cons, List.count_eq_zero.mpr hx,
    List.count_eq_zero.mpr hy, List.count_eq_zero.mpr hu]

theorem data_two_parts (x y : String) :
    (x ++ "-" ++ y).data = x.data ++ '-' :: y.data := by
  simp [String.data_append]

theorem data_three_parts (x m y : String) :
    (x ++ "-" ++ m ++ "-" ++ y).data = x.data ++ '-' :: (m.data ++ '-' :: y.data) := by
  simp [String.data_append]

theorem uid2_inj {x1 a1 x2 a2 : String}
    (hx1 : noHyphen x1) (hx2 : noHyphen x2)
    (h : x1 ++ "-" ++ a1 = x2 ++ "-" ++ a2) : x1 = x2 ∧ a1 = a2 := by
  have hd := congrArg String.data h
  rw [data_two_parts, data_two_parts] at hd
  obtain ⟨h1, h2⟩ := hyphen_split hx1 hx2 hd
  exact ⟨string_eq_of_data h1, string_eq_of_data h2⟩

theorem uid3_inj {x1 m1 a1 x2 m2 a2 : String}
    (hx1 : noHyphen x1) (hx2 : noHyphen x2)
    (hm1 : noHyphen m1) (hm2 : noHyphen m2)
    (h : x1 ++ "-" ++ m1 ++ "-" ++ a1 = x2 ++ "-" ++ m2 ++ "-" ++ a2) :
    x1 = x2 ∧ m1 = m2 ∧ a1 = a2 := by
  have hd := congrArg String.data h
  rw [data_three_parts, data_three_parts] at hd
  obtain ⟨h1, h2⟩ := hyphen_split hx1 hx2 hd
  obtain ⟨h3, h4⟩ := hyphen_split hm1 hm2 h2
  exact ⟨string_eq_of_data h1, string_eq_of_data h3, string_eq_of_data h4⟩

theorem uid2_ne_uid3 {x1 a1 x2 m a2 : String}
    (hx1 : noHyphen x1) (ha1 : noHyphen a1)
    (hx2 : noHyphen x2) (hm : noHyphen m) (ha2 : noHyphen a2) :
    x1 ++ "-" ++ a1 ≠ x2 ++ "-" ++ m ++ "-" ++ a2 := by
  intro h
  have hc := congrArg (fun s => s.data.count '-') h
  simp [data_two_parts, List.count_append, List.count_cons,
    List.count_eq_zero.mpr hx1, List.count_eq_zero.mpr ha1,
    List.count_eq_zero.mpr hx2, List.count_eq_zero.mpr hm,
    List.count_eq_zero.mpr ha2] at hc

theorem uidOf_none_eq (vin a : String) : uidOf vin none a = vin ++ "-" ++ a := rfl

theorem uidOf_last_trip_eq (vin a : String) :
    uidOf vin (some SERVICE_LAST_TRIP) a = vin ++ "-" ++ "last_trip" ++ "-" ++ a := rfl

theorem uidOf_all_trips_eq (vin a : String) :
    uidOf vin (some SERVICE_ALL_TRIPS) a = vin ++ "-" ++ "all_trips" ++ "-" ++ a := rfl

theorem uidOf_charging_eq (vin a : String) :
    uidOf vin (some SERVICE_CHARGING_PROFILE) a =
      vin ++ "-" ++ "charging_profile" ++ "-" ++ a := rfl

theorem uidOf_inj {vin1 vin2 a1 a2 : String} {so1 so2 : Option String}
    (hv1 : noHyphen vin1) (hv2 : noHyphen vin2)
    (ha1 : noHyphen a1) (ha2 : noHyphen a2)
    (hs1 : factoryService so1) (hs2 : factoryService so2)
    (h : uidOf vin1 so1 a1 = uidOf vin2 so2 a2) :
    vin1 = vin2 ∧ so1 = so2 ∧ a1 = a2 := by
  have nlt : noHyphen "last_trip" := by decide
  have nat : noHyphen "all_trips" := by decide
  have ncp : noHyphen "charging_profile" := by decide
  rcases hs1 with rfl | rfl | rfl | rfl <;> rcases hs2 with rfl | rfl | rfl | rfl <;>
    simp only [uidOf_none_eq, uidOf_last_trip_eq, uidOf_all_trips_eq,
      uidOf_charging_eq] at h
  · exact ⟨(uid2_inj hv1 hv2 h).1, rfl, (uid2_inj hv1 hv2 h).2⟩
  · exact absurd h (uid2_ne_uid3 hv1 ha1 hv2 nlt ha2)
  · exact absurd h (uid2_ne_uid3 hv1 ha1 hv2 nat ha2)
  · exact absurd h (uid2_ne_uid3 hv1 ha1 hv2 ncp ha2)
  · exact absurd h.symm (uid2_ne_uid3 hv2 ha2 hv1 nlt ha1)
  · exact ⟨(uid3_inj hv1 hv2 nlt nlt h).1, rfl, (uid3_inj hv1 hv2 nlt nlt h).2.2⟩
  · exact absurd (uid3_inj hv1 hv2 nlt nat h).2.1 (by decide)
  · exact absurd (uid3_inj hv1 hv2 nlt ncp h).2.1 (by decide)
  · exact absurd h.symm (uid2_ne_uid3 hv2 ha2 hv1 nat ha1)
  · exact absurd (uid3_inj hv1 hv2 nat nlt h).2.1 (by decide)
  · exact ⟨(uid3_inj hv1 hv2 nat nat h).1, rfl, (uid3_inj hv1 hv2 nat nat h).2.2⟩
  · exact absurd (uid3_inj hv1 hv2 nat ncp h).2.1 (by decide)
  · exact absurd h.symm (uid2_ne_uid3 hv2 ha2 hv1 ncp ha1)
  · exact absurd (uid3_inj hv1 hv2 ncp nlt h).2.1 (by decide)
  · exact absurd (uid3_inj hv1 hv2 ncp nat h).2.1 (by decide)
  · exact ⟨(uid3_inj hv1 hv2 ncp ncp h).1, rfl, (uid3_inj hv1 hv2 ncp ncp h).2.2⟩

theorem noHyphen_flat {a sub : String} (ha : noHyphen a) (hu : noHyphen sub) :
    noHyphen (a ++ "_" ++ sub) :=
  noHyphen_append.mpr ⟨noHyphen_append.mpr ⟨ha, by decide⟩, hu⟩

theorem mem_ite_nil {α : Type} {c : Prop} [Decidable c] {l : List α} {x : α}
    (h : x ∈ if c then l else []) : c ∧ x ∈ l := by
  by_cases hc : c
  · rw [if_pos hc] at h
    exact ⟨hc, h⟩
  · rw [if_neg hc] at h
    simp at h

theorem mem_allTripsExpandAttr {info : List (String × IconUnit)} {v : Vehicle}
    {svc a : String} {s : BMWConnectedDriveSensor}
    (h : s ∈ allTripsExpandAttr info v svc a) :
    ∃ a2, s = mkSensor v a2 info (some svc) ∧ (noHyphen a → noHyphen a2) := by
  unfold allTripsExpandAttr at h
  split at h
  · rcases List.mem_append.mp h with h12 | h3
    · rcases List.mem_append.mp h12 with h1 | h2
      · obtain ⟨sub, hsub, rfl⟩ := List.mem_map.mp h1
        refine ⟨a ++ "_" ++ sub, rfl, fun hna => noHyphen_flat hna ?_⟩
        fin_cases hsub <;> decide
      · obtain ⟨hc, h2'⟩ := mem_ite_nil h2
        obtain ⟨sub, hsub, rfl⟩ := List.mem_map.mp h2'
        refine ⟨a ++ "_" ++ sub, rfl, fun hna => noHyphen_flat hna ?_⟩
        fin_cases hsub <;> decide
    · obtain ⟨hc, h3'⟩ := mem_ite_nil h3
      obtain ⟨sub, hsub, rfl⟩ := List.mem_map.mp h3'
      refine ⟨a ++ "_" ++ sub, rfl, fun hna => noHyphen_flat hna ?_⟩
      fin_cases hsub
      decide
  · simp only [List.mem_singleton] at h
    exact ⟨a, h, fun hna => hna⟩

theorem mem_chargingProfileExpandAttr {info : List (String × IconUnit)} {v : Vehicle}
    {svc a : String} {s : BMWConnectedDriveSensor}
    (h : s ∈ chargingProfileExpandAttr info v svc a) :
    ∃ a2, s = mkSensor v a2 info (some svc) ∧ (noHyphen a → noHyphen a2) := by
  unfold chargingProfileExpandAttr at h
  split at h
  · obtain ⟨sub, hsub, rfl⟩ := List.mem_map.mp h
    refine ⟨a ++ "_" ++ sub, rfl, fun hna => noHyphen_flat hna ?_⟩
    fin_cases hsub <;> decide
  · split at h
    · obtain ⟨t, ht, hs⟩ := List.mem_flatMap.mp h
      obtain ⟨sub, hsub, rfl⟩ := List.mem_map.mp hs
      refine ⟨a ++ "_" ++ toString t ++ "_" ++ sub, rfl, fun hna => ?_⟩
      refine noHyphen_flat (noHyphen_flat hna ?_) ?_
      · fin_cases ht <;> decide
      · fin_cases hsub <;> decide
    · simp only [List.mem_singleton] at h
      exact ⟨a, h, fun hna => hna⟩

theorem mem_serviceEntities {info : List (String × IconUnit)} {v : Vehicle}
    {svc : String} {s : BMWConnectedDriveSensor}
    (h : s ∈ serviceEntities info v svc) :
    ∃ a2 so, s = mkSensor v a2 info so ∧ factoryService so ∧
      (so = none ∨ so = some svc) ∧ (cleanAttrs v → noHyphen a2) := by
  unfold serviceEntities at h
  rcases List.mem_append.mp h with h123 | h4
  rcases List.mem_append.mp h123 with h12 | h3
  rcases List.mem_append.mp h12 with h1 | h2
  · obtain ⟨-, h1'⟩ := mem_ite_nil h1
    unfold statusEntities at h1'
    obtain ⟨a, ha, rfl⟩ := List.mem_map.mp h1'
    have hmem := (List.mem_filter.mp ha).1
    exact ⟨a, none, rfl, Or.inl rfl, Or.inl rfl, fun hc => hc.1 a hmem⟩
  · obtain ⟨hc2, h2'⟩ := mem_ite_nil h2
    obtain ⟨a, ha, rfl⟩ := List.mem_map.mp h2'
    have hsvc : svc = SERVICE_LAST_TRIP := by simpa using hc2
    exact ⟨a, some svc, rfl, Or.inr (Or.inl (by rw [hsvc])), Or.inr rfl,
      fun hc => hc.2.1 a ha⟩
  · obtain ⟨hc3, h3'⟩ := mem_ite_nil h3
    obtain ⟨a, ha, hmem⟩ := List.mem_flatMap.mp h3'
    obtain ⟨a2, rfl, hclean⟩ := mem_allTripsExpandAttr hmem
    have hsvc : svc = SERVICE_ALL_TRIPS := by simpa using hc3
    exact ⟨a2, some svc, rfl, Or.inr (Or.inr (Or.inl (by rw [hsvc]))), Or.inr rfl,
      fun hc => hclean (hc.2.2.1 a ha)⟩
  · obtain ⟨hc4, h4'⟩ := mem_ite_nil h4
    obtain ⟨a, ha, hmem⟩ := List.mem_flatMap.mp h4'
    obtain ⟨a2, rfl, hclean⟩ := mem_chargingProfileExpandAttr hmem
    have hsvc : svc = SERVICE_CHARGING_PROFILE := by simpa using hc4
    exact ⟨a2, some svc, rfl, Or.inr (Or.inr (Or.inr (by rw [hsvc]))), Or.inr rfl,
      fun hc => hclean (hc.2.2.2 a ha)⟩

theorem mem_setupEntitiesForVehicle {info : List (String × IconUnit)} {v : Vehicle}
    {s : BMWConnectedDriveSensor} (h : s ∈ setupEntitiesForVehicle info v) :
    ∃ a2 so, s = mkSensor v a2 info so ∧ factoryService so ∧
      (cleanAttrs v → noHyphen a2) := by
  unfold setupEntitiesForVehicle at h
  obtain ⟨svc, -, hmem⟩ := List.mem_flatMap.mp h
  obtain ⟨a2, so, hs, hf, -, hcl⟩ := mem_serviceEntities hmem
  exact ⟨a2, so, hs, hf, hcl⟩

theorem mem_async_setup_entry {unitsName : String} {vehicles : List Vehicle}
    {s : BMWConnectedDriveSensor} (h : s ∈ async_setup_entry unitsName vehicles) :
    ∃ v ∈ vehicles, ∃ a2 so, s = mkSensor v a2 (selectedTable unitsName) so ∧
      factoryService so ∧ (cleanAttrs v → noHyphen a2) := by
  unfold async_setup_entry at h
  obtain ⟨v, hv, hmem⟩ := List.mem_flatMap.mp h
  exact ⟨v, hv, mem_setupEntitiesForVehicle hmem⟩

theorem mkSensor_vehicle (v : Vehicle) (a : String) (info : List (String × IconUnit))
    (so : Option String) : (mkSensor v a info so).vehicle = v := rfl

theorem mkSensor_attr (v : Vehicle) (a : String) (info : List (String × IconUnit))
    (so : Option String) : (mkSensor v a info so).attribute_name = a := rfl

theorem mkSensor_service (v : Vehicle) (a : String) (info : List (String × IconUnit))
    (so : Option String) : (mkSensor v a info so).service = so := rfl

theorem mkSensor_info (v : Vehicle) (a : String) (info : List (String × IconUnit))
    (so : Option String) : (mkSensor v a info so).attribute_info = info := rfl

theorem mkSensor_uniqueId (v : Vehicle) (a : String) (info : List (String × IconUnit))
    (so : Option String) : (mkSensor v a info so).uniqueId = uidOf v.vin so a := rfl

theorem mkSensor_state (v : Vehicle) (a : String) (info : List (String × IconUnit))
    (so : Option String) : (mkSensor v a info so).state = none := rfl

theorem findTimerUpdate_not_found {timers : List (String × List (String × Val))}
    {timer_id : String} (sub_attr : String)
    (h : ∀ p ∈ timers, p.1 ≠ timer_id) :
    findTimerUpdate timers timer_id sub_attr = UpdateResult.noChange := by
  induction timers with
  | nil => rfl
  | cons p rest ih =>
    obtain ⟨k, entry⟩ := p
    have hk : k ≠ timer_id := h (k, entry) (List.mem_cons_self _ _)
    rw [findTimerUpdate, if_neg (by simpa using hk)]
    exact ih (fun q hq => h q (List.mem_cons_of_mem _ hq))

theorem countTimer_append (l1 l2 : List BMWConnectedDriveSensor) :
    countTimer (l1 ++ l2) = countTimer l1 + countTimer l2 := by
  simp [countTimer, List.filter_append]

theorem countTimer_cpExpand (info : List (String × IconUnit)) (v : Vehicle)
    (a : String) (hna : a ∉ timerKeys9) :
    countTimer (chargingProfileExpandAttr info v SERVICE_CHARGING_PROFILE a) =
      if a = "pre_entry_climatization_timer" then 9 else 0 := by
  by_cases h2 : a = "pre_entry_climatization_timer"
  · subst h2
    rfl
  · by_cases h1 : a = "preferred_charging_window"
    · subst h1
      rfl
    · unfold chargingProfileExpandAttr
      rw [if_neg (by simpa using h1), if_neg (by simpa using h2), if_neg h2]
      simp [countTimer, isTimerSensor, mkSensor_attr, mkSensor_service, hna]

theorem countTimer_eq_zero (l : List BMWConnectedDriveSensor)
    (h : ∀ s ∈ l, isTimerSensor s = false) : countTimer l = 0 := by
  induction l with
  | nil => rfl
  | cons s rest ih =>
    rw [countTimer, List.filter_cons, if_neg (by simp [h s (List.mem_cons_self _ _)])]
    exact ih (fun x hx => h x (List.mem_cons_of_mem _ hx))

theorem countTimer_cpFlat (info : List (String × IconUnit)) (v : Vehicle)
    (attrs : List String) (hclean : ∀ a ∈ attrs, a ∉ timerKeys9) :
    countTimer (attrs.flatMap (chargingProfileExpandAttr info v SERVICE_CHARGING_PROFILE)) =
      9 * attrs.count "pre_entry_climatization_timer" := by
  induction attrs with
  | nil => rfl
  | cons a rest ih =>
    rw [List.flatMap_cons, countTimer_append,
      countTimer_cpExpand info v a (hclean a (List.mem_cons_self _ _)),
      ih (fun x hx => hclean x (List.mem_cons_of_mem _ hx)), List.count_cons]
    by_cases h : a = "pre_entry_climatization_timer"
    · rw [if_pos h, if_pos (by simpa using h)]
      omega
    · rw [if_neg h, if_neg (by simpa using h)]
      omega

theorem countTimer_serviceEntities (info : List (String × IconUnit)) (v : Vehicle)
    (svc : String)
    (hclean : ∀ a ∈ v.charging_profile_available_attributes, a ∉ timerKeys9) :
    countTimer (serviceEntities info v svc) =
      if svc = SERVICE_CHARGING_PROFILE
      then 9 * v.charging_profile_available_attributes.count "pre_entry_climatization_timer"
      else 0 := by
  by_cases hcp : svc = SERVICE_CHARGING_PROFILE
  · subst hcp
    rw [if_pos rfl]
    unfold serviceEntities
    rw [countTimer_append, countTimer_append, countTimer_append]
    rw [show countTimer (if (SERVICE_CHARGING_PROFILE == SERVICE_STATUS) = true
        then statusEntities info v else []) = 0 from rfl]
    rw [show countTimer (if (SERVICE_CHARGING_PROFILE == SERVICE_LAST_TRIP) = true
        then v.last_trip_available_attributes.map
          (fun a => mkSensor v a info (some SERVICE_CHARGING_PROFILE)) else []) = 0 from rfl]
    rw [show countTimer (if (SERVICE_CHARGING_PROFILE == SERVICE_ALL_TRIPS) = true
        then v.all_trips_available_attributes.flatMap
          (allTripsExpandAttr info v SERVICE_CHARGING_PROFILE) else []) = 0 from rfl]
    rw [if_pos (by decide)]
    rw [countTimer_cpFlat info v _ hclean]
    omega
  · rw [if_neg hcp]
    refine countTimer_eq_zero _ (fun s hs => ?_)
    obtain ⟨a2, so, rfl, -, hlink, -⟩ := mem_serviceEntities hs
    rcases hlink with rfl | rfl
    · rfl
    · simp [isTimerSensor, mkSensor_service, hcp]

theorem countTimer_setup (info : List (String × IconUnit)) (v : Vehicle)
    (hclean : ∀ a ∈ v.charging_profile_available_attributes, a ∉ timerKeys9)
    (hsvc : v.available_state_services.count SERVICE_CHARGING_PROFILE = 1)
    (hattr : v.charging_profile_available_attributes.count
      "pre_entry_climatization_timer" = 1) :
    countTimer (setupEntitiesForVehicle info v) = 9 := by
  unfold setupEntitiesForVehicle
  have general : ∀ svcs : List String,
      countTimer (svcs.flatMap (serviceEntities info v)) =
        (svcs.count SERVICE_CHARGING_PROFILE) *
          (9 * v.charging_profile_available_attributes.count
            "pre_entry_climatization_timer") := by
    intro svcs
    induction svcs with
    | nil => simp [countTimer]
    | cons svc rest ih =>
      rw [List.flatMap_cons, countTimer_append, ih,
        countTimer_serviceEntities info v svc hclean, List.count_cons]
      by_cases h : svc = SERVICE_CHARGING_PROFILE
      · rw [if_pos h, if_pos (by simpa using h)]
        ring
      · rw [if_neg h, if_neg (by simpa using h)]
        ring
  rw [general, hsvc, hattr]

/-- C1 (counterexample): a vehicle whose enabled services include the
destinations service and whose destinations remote reports one available
attribute nevertheless yields an empty entity list — the factory does not
produce one sensor per destinations attribute, because `async_setup_entry`
has no destinations arm. -/
theorem C1_counterexample :
    SERVICE_DESTINATIONS ∈ destOnlyVehicle.available_state_services ∧
    destOnlyVehicle.destinations_available_attributes.length = 1 ∧
    async_setup_entry "metric" [destOnlyVehicle] = [] :=
  ⟨by decide, by decide, rfl⟩

/-- C1 (amended): the factory ignores the destinations service entirely —
no sensor created by `async_setup_entry` carries the destinations service
tag; only status (no tag), last-trip, all-trips and charging-profile sensors
are produced. -/
theorem C1_no_destinations_entities (unitsName : String) (vehicles : List Vehicle)
    (s : BMWConnectedDriveSensor) (h : s ∈ async_setup_entry unitsName vehicles) :
    s.service ≠ some SERVICE_DESTINATIONS := by
  obtain ⟨v, -, a2, so, rfl, hf, -⟩ := mem_async_setup_entry h
  rw [mkSensor_service]
  rcases hf with rfl | rfl | rfl | rfl <;> decide

/-- C1 amended-claim witness at a concrete setup. -/
theorem C1_no_destinations_entities_witness :
    (mkSensor statusOnlyVehicle "mileage" ATTR_TO_HA_METRIC none).service ≠
      some SERVICE_DESTINATIONS := by
  refine C1_no_destinations_entities "metric" [statusOnlyVehicle] _ ?_
  rw [show async_setup_entry "metric" [statusOnlyVehicle] =
    [mkSensor statusOnlyVehicle "mileage" ATTR_TO_HA_METRIC none,
     mkSensor statusOnlyVehicle "remaining_fuel" ATTR_TO_HA_METRIC none] from rfl]
  exact List.mem_cons_self _ _

/-- C4: for any attribute key absent from the merged registry table the
sensor uses, the `icon` and `unit_of_measurement` accessors both fall back
to `None` — the dict lookup degrades via its `[None, None]` default instead
of raising. -/
theorem C4_unknown_key (s : BMWConnectedDriveSensor) (st : VehicleState)
    (iconFB : Option Val → Bool → Option String)
    (htab : s.attribute_info = ATTR_TO_HA_METRIC ∨ s.attribute_info = ATTR_TO_HA_IMPERIAL)
    (hmiss : dictGet s.attribute_info s.attribute_name = none) :
    BMWConnectedDriveSensor.icon s st iconFB = none ∧
    s.unit_of_measurement = none := by
  have hne : s.attribute_name ≠ "charging_level_hv" := by
    intro he
    rcases htab with ht | ht <;> rw [ht, he] at hmiss <;> exact absurd hmiss (by decide)
  constructor
  · simp [BMWConnectedDriveSensor.icon, hne, hmiss]
  · simp [BMWConnectedDriveSensor.unit_of_measurement, hmiss]

/-- C4 witness: an unknown key on a metric-table sensor. -/
theorem C4_unknown_key_witness :
    BMWConnectedDriveSensor.icon
      (mkSensor demoVehicle "not_a_known_attribute" ATTR_TO_HA_METRIC none)
      demoState (fun _ _ => some "mdi:battery") = none ∧
    (mkSensor demoVehicle "not_a_known_attribute" ATTR_TO_HA_METRIC none).unit_of_measurement
      = none :=
  C4_unknown_key _ _ _ (Or.inl rfl) (by decide)

/-- C5: the table a sensor stores is a pure function of the configured unit
system name — `imperial` selects the gallons/miles table for every created
sensor, any other name the liters/kilometers table. -/
theorem C5_table_selection (unitsName : String) (vehicles : List Vehicle) :
    (unitsName = CONF_UNIT_SYSTEM_IMPERIAL →
      selectedTable unitsName = ATTR_TO_HA_IMPERIAL ∧
      ∀ s ∈ async_setup_entry unitsName vehicles,
        s.attribute_info = ATTR_TO_HA_IMPERIAL) ∧
    (unitsName ≠ CONF_UNIT_SYSTEM_IMPERIAL →
      selectedTable unitsName = ATTR_TO_HA_METRIC ∧
      ∀ s ∈ async_setup_entry unitsName vehicles,
        s.attribute_info = ATTR_TO_HA_METRIC) := by
  constructor
  · intro himp
    have hsel : selectedTable unitsName = ATTR_TO_HA_IMPERIAL := by
      rw [selectedTable, if_pos (by simpa using himp)]
    refine ⟨hsel, fun s hs => ?_⟩
    obtain ⟨v, -, a2, so, rfl, -, -⟩ := mem_async_setup_entry hs
    rw [mkSensor_info, hsel]
  · intro himp
    have hsel : selectedTable unitsName = ATTR_TO_HA_METRIC := by
      rw [selectedTable, if_neg (by simpa using himp)]
    refine ⟨hsel, fun s hs => ?_⟩
    obtain ⟨v, -, a2, so, rfl, -, -⟩ := mem_async_setup_entry hs
    rw [mkSensor_info, hsel]

/-- C5 witness at the two concrete unit-system names. -/
theorem C5_table_selection_witness :
    selectedTable "imperial" = ATTR_TO_HA_IMPERIAL ∧
    selectedTable "metric" = ATTR_TO_HA_METRIC :=
  ⟨((C5_table_selection "imperial" []).1 rfl).1,
   ((C5_table_selection "metric" []).2 (by decide)).1⟩

/-- C6: merging the generic table into an already-merged unit table a second
time changes nothing, and the generic entry is the merged table's value for
every generic key (later merge wins on collision). -/
theorem C6_merge_idempotent :
    dictUpdate ATTR_TO_HA_METRIC ATTR_TO_HA_GENERIC = ATTR_TO_HA_METRIC ∧
    dictUpdate ATTR_TO_HA_IMPERIAL ATTR_TO_HA_GENERIC = ATTR_TO_HA_IMPERIAL ∧
    ∀ k vl, dictGet ATTR_TO_HA_GENERIC k = some vl →
      dictGet ATTR_TO_HA_METRIC k = some vl ∧
      dictGet ATTR_TO_HA_IMPERIAL k = some vl := by
  refine ⟨by decide, by decide, fun k vl h => ⟨?_, ?_⟩⟩
  · rw [show ATTR_TO_HA_METRIC =
      dictUpdate ATTR_TO_HA_METRIC_initial ATTR_TO_HA_GENERIC from rfl,
      dictGet_dictUpdate, h]
  · rw [show ATTR_TO_HA_IMPERIAL =
      dictUpdate ATTR_TO_HA_IMPERIAL_initial ATTR_TO_HA_GENERIC from rfl,
      dictGet_dictUpdate, h]

/-- C6 witness: the generic `charging_status` entry is what both merged
tables return. -/
theorem C6_merge_idempotent_witness :
    dictGet ATTR_TO_HA_METRIC "charging_status" =
      some (some "mdi:battery-charging", none) ∧
    dictGet ATTR_TO_HA_IMPERIAL "charging_status" =
      some (some "mdi:battery-charging", none) :=
  C6_merge_idempotent.2.2 "charging_status" _ rfl

/-- C7: on a sensor whose registry unit is gallons, `update` reads the raw
status value, converts it with the host's liters-to-configured-volume
helper, and stores the Python-rounded integer. -/
theorem C7_gallons_conversion (s : BMWConnectedDriveSensor)
    (volumeConv lengthConv : ℚ → ℚ) (st : VehicleState) (x : ℚ)
    (hattr : s.attribute_name ≠ "charging_status")
    (hunit : s.unit_of_measurement = some VOLUME_GALLONS)
    (hval : vsGetattr st s.attribute_name = some (Val.vNum x)) :
    BMWConnectedDriveSensor.update s volumeConv lengthConv st =
      UpdateResult.ok (Val.vInt (pythonRound (volumeConv x))) := by
  unfold BMWConnectedDriveSensor.update
  rw [if_neg (by simpa using hattr), if_pos (by simpa using hunit), hval]

/-- C7 witness: raw value `37.8` L with conversion ratio `0.2642` gives the
integer `10`. -/
theorem C7_gallons_conversion_witness :
    BMWConnectedDriveSensor.update
      (mkSensor demoVehicle "remaining_fuel" ATTR_TO_HA_IMPERIAL none)
      (timesRatio 1321 5000) (timesRatio 1 1) demoState =
      UpdateResult.ok (Val.vInt 10) := by
  rw [C7_gallons_conversion
    (mkSensor demoVehicle "remaining_fuel" ATTR_TO_HA_IMPERIAL none)
    (timesRatio 1321 5000) (timesRatio 1 1) demoState (mkRat 189 5)
    (by decide) (by decide) rfl]
  exact congrArg (fun z => UpdateResult.ok (Val.vInt z)) (by decide)

/-- C2: the factory flattens the charging window into exactly the two keys
`preferred_charging_window_start_time` / `..._end_time`; the sensor with the
`start_time` key reads back `"22:00"` after `update`; and for every
flattened charging-profile key the factory emits (both window keys and all
nine timer keys), the adapter's regex re-parsing recovers exactly the
sub-field value the key was flattened from. -/
theorem C2_flatten_roundtrip :
    (∀ (info : List (String × IconUnit)) (v : Vehicle),
      (chargingProfileExpandAttr info v SERVICE_CHARGING_PROFILE
          "preferred_charging_window").map BMWConnectedDriveSensor.attribute_name =
        ["preferred_charging_window_start_time",
         "preferred_charging_window_end_time"]) ∧
    applyUpdate none (BMWConnectedDriveSensor.update
        (mkSensor demoVehicle "preferred_charging_window_start_time"
          ATTR_TO_HA_METRIC (some SERVICE_CHARGING_PROFILE))
        (timesRatio 1 1) (timesRatio 1 1) demoState) =
      some (Val.vStr "22:00") ∧
    ((chargingProfileExpandAttr ATTR_TO_HA_METRIC demoVehicle
        SERVICE_CHARGING_PROFILE "preferred_charging_window" ++
      chargingProfileExpandAttr ATTR_TO_HA_METRIC demoVehicle
        SERVICE_CHARGING_PROFILE "pre_entry_climatization_timer").map
        (fun s => applyUpdate none (BMWConnectedDriveSensor.update s
          (timesRatio 1 1) (timesRatio 1 1) demoState)) =
      [some (Val.vStr "22:00"), some (Val.vStr "06:00"),
       some (Val.vStr "True"), some (Val.vStr "07:30"), some (Val.vStr "MONDAY"),
       some (Val.vStr "False"), some (Val.vStr "08:15"), some (Val.vStr "TUESDAY"),
       some (Val.vStr "True"), some (Val.vStr "09:00"), some (Val.vStr "SUNDAY")]) :=
  ⟨fun _ _ => rfl, rfl, rfl⟩

theorem chargingProfileBranch_timer_key (cp : List (String × Val))
    (td : List (String × List (String × Val))) (n : Nat) (sub : String)
    (hn : n ∈ ([1, 2, 3] : List Nat))
    (hsub : sub ∈ ["timer_enabled", "departure_time", "weekdays"])
    (htd : dictGet cp "pre_entry_climatization_timer" = some (Val.vTimerDict td)) :
    chargingProfileBranch cp
        ("pre_entry_climatization_timer_" ++ toString n ++ "_" ++ sub) =
      findTimerUpdate td ("timer" ++ toString n) sub := by
  fin_cases hn <;> fin_cases hsub <;>
    · unfold chargingProfileBranch
      rw [htd]
      rfl

theorem update_timer_reduces (s : BMWConnectedDriveSensor)
    (volC lenC : ℚ → ℚ) (st : VehicleState)
    (td : List (String × List (String × Val))) (n : Nat) (sub : String)
    (hn : n ∈ ([1, 2, 3] : List Nat))
    (hsub : sub ∈ ["timer_enabled", "departure_time", "weekdays"])
    (hattr : s.attribute_name =
      "pre_entry_climatization_timer_" ++ toString n ++ "_" ++ sub)
    (hsvc : s.service = some SERVICE_CHARGING_PROFILE)
    (hgal : s.unit_of_measurement ≠ some VOLUME_GALLONS)
    (hmi : s.unit_of_measurement ≠ some LENGTH_MILES)
    (htd : dictGet st.charging_profile "pre_entry_climatization_timer" =
      some (Val.vTimerDict td)) :
    BMWConnectedDriveSensor.update s volC lenC st =
      findTimerUpdate td ("timer" ++ toString n) sub := by
  have hcs : s.attribute_name ≠ "charging_status" := by
    rw [hattr]
    fin_cases hn <;> fin_cases hsub <;> decide
  unfold BMWConnectedDriveSensor.update
  rw [if_neg (by simpa using hcs), if_neg (by simpa using hgal),
    if_neg (by simpa using hmi), hsvc]
  show chargingProfileBranch st.charging_profile s.attribute_name =
    findTimerUpdate td ("timer" ++ toString n) sub
  rw [hattr, chargingProfileBranch_timer_key st.charging_profile td n sub hn hsub htd]

/-- C3: (1) the factory expands the climatization-timer attribute into
exactly the nine flattened keys `timer 1..3 × {timer_enabled, departure_time,
weekdays}` — the expansion reads nothing but the advertised attribute name,
so the number of timers the remote state actually reports cannot influence
it; (2) a vehicle advertising the charging-profile service once and the
timer attribute once gets exactly 9 timer sensors; (3) each timer sensor's
`update` resolves its value by scanning the timer dict found in the state at
read time for the key whose enum value matches `timer{n}`. -/
theorem C3_timer_expansion :
    (∀ (info : List (String × IconUnit)) (v : Vehicle),
      (chargingProfileExpandAttr info v SERVICE_CHARGING_PROFILE
          "pre_entry_climatization_timer").map BMWConnectedDriveSensor.attribute_name =
        timerKeys9) ∧
    (∀ (info : List (String × IconUnit)) (v : Vehicle),
      (∀ a ∈ v.charging_profile_available_attributes, a ∉ timerKeys9) →
      v.available_state_services.count SERVICE_CHARGING_PROFILE = 1 →
      v.charging_profile_available_attributes.count
        "pre_entry_climatization_timer" = 1 →
      countTimer (setupEntitiesForVehicle info v) = 9) ∧
    (∀ (s : BMWConnectedDriveSensor) (volC lenC : ℚ → ℚ) (st : VehicleState)
      (td : List (String × List (String × Val))) (n : Nat) (sub : String),
      n ∈ ([1, 2, 3] : List Nat) →
      sub ∈ ["timer_enabled", "departure_time", "weekdays"] →
      s.attribute_name = "pre_entry_climatization_timer_" ++ toString n ++ "_" ++ sub →
      s.service = some SERVICE_CHARGING_PROFILE →
      s.unit_of_measurement ≠ some VOLUME_GALLONS →
      s.unit_of_measurement ≠ some LENGTH_MILES →
      dictGet st.charging_profile "pre_entry_climatization_timer" =
        some (Val.vTimerDict td) →
      BMWConnectedDriveSensor.update s volC lenC st =
        findTimerUpdate td ("timer" ++ toString n) sub) :=
  ⟨fun _ _ => rfl,
   fun info v hclean hsvc hattr => countTimer_setup info v hclean hsvc hattr,
   fun s volC lenC st td n sub hn hsub hattr hsvc hgal hmi htd =>
     update_timer_reduces s volC lenC st td n sub hn hsub hattr hsvc hgal hmi htd⟩

/-- C3 witness: the demo vehicle gets exactly 9 timer sensors, and the
timer-2 departure-time sensor resolves through the timer dict. -/
theorem C3_timer_expansion_witness :
    countTimer (setupEntitiesForVehicle ATTR_TO_HA_METRIC demoVehicle) = 9 ∧
    BMWConnectedDriveSensor.update
      (mkSensor demoVehicle "pre_entry_climatization_timer_2_departure_time"
        ATTR_TO_HA_METRIC (some SERVICE_CHARGING_PROFILE))
      (timesRatio 1 1) (timesRatio 1 1) demoState =
      findTimerUpdate demoTimerDict ("timer" ++ toString 2) "departure_time" :=
  ⟨C3_timer_expansion.2.1 ATTR_TO_HA_METRIC demoVehicle (by decide) (by decide)
    (by decide),
   C3_timer_expansion.2.2
    (mkSensor demoVehicle "pre_entry_climatization_timer_2_departure_time"
      ATTR_TO_HA_METRIC (some SERVICE_CHARGING_PROFILE))
    (timesRatio 1 1) (timesRatio 1 1) demoState demoTimerDict 2 "departure_time"
    (by decide) (by decide) rfl rfl (by decide) (by decide) rfl⟩

/-- C10: for a climatization-timer sensor, when no timer in the state's
timer dict has the matching `timer{n}` id, `update` returns without raising
and without assigning, so the previously cached state value survives
unchanged (`None` if it was never initialized). -/
theorem C10_timer_not_found (s : BMWConnectedDriveSensor)
    (volC lenC : ℚ → ℚ) (st : VehicleState)
    (td : List (String × List (String × Val))) (n : Nat) (sub : String)
    (cached : Option Val)
    (hn : n ∈ ([1, 2, 3] : List Nat))
    (hsub : sub ∈ ["timer_enabled", "departure_time", "weekdays"])
    (hattr : s.attribute_name =
      "pre_entry_climatization_timer_" ++ toString n ++ "_" ++ sub)
    (hsvc : s.service = some SERVICE_CHARGING_PROFILE)
    (hgal : s.unit_of_measurement ≠ some VOLUME_GALLONS)
    (hmi : s.unit_of_measurement ≠ some LENGTH_MILES)
    (htd : dictGet st.charging_profile "pre_entry_climatization_timer" =
      some (Val.vTimerDict td))
    (hmiss : ∀ p ∈ td, p.1 ≠ "timer" ++ toString n) :
    BMWConnectedDriveSensor.update s volC lenC st = UpdateResult.noChange ∧
    applyUpdate cached (BMWConnectedDriveSensor.update s volC lenC st) = cached := by
  have h1 : BMWConnectedDriveSensor.update s volC lenC st = UpdateResult.noChange := by
    rw [update_timer_reduces s volC lenC st td n sub hn hsub hattr hsvc hgal hmi htd]
    exact findTimerUpdate_not_found sub hmiss
  exact ⟨h1, by rw [h1, applyUpdate]⟩

/-- C10 witness: a timer-3 sensor against a state reporting only `timer1`
keeps its stale cached value. -/
theorem C10_timer_not_found_witness :
    BMWConnectedDriveSensor.update
      (mkSensor demoVehicle "pre_entry_climatization_timer_3_weekdays"
        ATTR_TO_HA_METRIC (some SERVICE_CHARGING_PROFILE))
      (timesRatio 1 1) (timesRatio 1 1) sparseTimerState = UpdateResult.noChange ∧
    applyUpdate (some (Val.vStr "SUNDAY"))
      (BMWConnectedDriveSensor.update
        (mkSensor demoVehicle "pre_entry_climatization_timer_3_weekdays"
          ATTR_TO_HA_METRIC (some SERVICE_CHARGING_PROFILE))
        (timesRatio 1 1) (timesRatio 1 1) sparseTimerState) =
      some (Val.vStr "SUNDAY") :=
  C10_timer_not_found
    (mkSensor demoVehicle "pre_entry_climatization_timer_3_weekdays"
      ATTR_TO_HA_METRIC (some SERVICE_CHARGING_PROFILE))
    (timesRatio 1 1) (timesRatio 1 1) sparseTimerState sparseTimerDict 3 "weekdays"
    (some (Val.vStr "SUNDAY")) (by decide) (by decide) rfl rfl (by decide) (by decide)
    rfl (by decide)

theorem allTripsBranch_no_match (all_trips : List (String × Val)) (attr : String)
    (l : List String) (h : ∀ a ∈ l, reSearchGroup2 a attr = none) :
    allTripsBranch all_trips attr l =
      match dictGet all_trips attr with
      | some v => UpdateResult.ok v
      | none => UpdateResult.error := by
  induction l with
  | nil => rfl
  | cons a rest ih =>
    rw [allTripsBranch, h a (List.mem_cons_self _ _)]
    exact ih (fun x hx => h x (List.mem_cons_of_mem _ hx))

/-- C9: `update` defines no recovery — whenever the field named by the
sensor's attribute key (or the base/sub-object the key is parsed into) is
absent from the relevant state object, or the value has the wrong type for
the unit conversion, the `getattr`/conversion fault escapes `update`
unhandled; no branch substitutes a value.  One conjunct per read path:
status read, volume conversion, last-trip read, all-trips plain read,
charging-profile plain read, window sub-read, window base read, timer base
read. -/
theorem C9_missing_field_faults (s : BMWConnectedDriveSensor)
    (volC lenC : ℚ → ℚ) (st : VehicleState) :
    (s.service = none → vsGetattr st s.attribute_name = none →
      BMWConnectedDriveSensor.update s volC lenC st = UpdateResult.error) ∧
    (s.attribute_name ≠ "charging_status" →
      s.unit_of_measurement = some VOLUME_GALLONS →
      (∀ x : ℚ, vsGetattr st s.attribute_name ≠ some (Val.vNum x)) →
      BMWConnectedDriveSensor.update s volC lenC st = UpdateResult.error) ∧
    (s.attribute_name ≠ "charging_status" →
      s.unit_of_measurement ≠ some VOLUME_GALLONS →
      s.unit_of_measurement ≠ some LENGTH_MILES →
      s.service = some SERVICE_LAST_TRIP →
      dictGet st.last_trip s.attribute_name = none →
      BMWConnectedDriveSensor.update s volC lenC st = UpdateResult.error) ∧
    (s.attribute_name ≠ "charging_status" →
      s.unit_of_measurement ≠ some VOLUME_GALLONS →
      s.unit_of_measurement ≠ some LENGTH_MILES →
      s.service = some SERVICE_ALL_TRIPS →
      (∀ a ∈ statAttrList, reSearchGroup2 a s.attribute_name = none) →
      dictGet st.all_trips s.attribute_name = none →
      BMWConnectedDriveSensor.update s volC lenC st = UpdateResult.error) ∧
    (s.attribute_name ≠ "charging_status" →
      s.unit_of_measurement ≠ some VOLUME_GALLONS →
      s.unit_of_measurement ≠ some LENGTH_MILES →
      s.service = some SERVICE_CHARGING_PROFILE →
      reSearchGroup2 "preferred_charging_window" s.attribute_name = none →
      reSearchTimer "pre_entry_climatization_timer" s.attribute_name = none →
      dictGet st.charging_profile s.attribute_name = none →
      BMWConnectedDriveSensor.update s volC lenC st = UpdateResult.error) ∧
    (s.attribute_name ≠ "charging_status" →
      s.unit_of_measurement ≠ some VOLUME_GALLONS →
      s.unit_of_measurement ≠ some LENGTH_MILES →
      s.service = some SERVICE_CHARGING_PROFILE →
      ∀ sub, reSearchGroup2 "preferred_charging_window" s.attribute_name = some sub →
      ∀ base, dictGet st.charging_profile "preferred_charging_window" = some base →
      objGetattr base sub = none →
      BMWConnectedDriveSensor.update s volC lenC st = UpdateResult.error) ∧
    (s.attribute_name ≠ "charging_status" →
      s.unit_of_measurement ≠ some VOLUME_GALLONS →
      s.unit_of_measurement ≠ some LENGTH_MILES →
      s.service = some SERVICE_CHARGING_PROFILE →
      ∀ sub, reSearchGroup2 "preferred_charging_window" s.attribute_name = some sub →
      dictGet st.charging_profile "preferred_charging_window" = none →
      BMWConnectedDriveSensor.update s volC lenC st = UpdateResult.error) ∧
    (s.attribute_name ≠ "charging_status" →
      s.unit_of_measurement ≠ some VOLUME_GALLONS →
      s.unit_of_measurement ≠ some LENGTH_MILES →
      s.service = some SERVICE_CHARGING_PROFILE →
      reSearchGroup2 "preferred_charging_window" s.attribute_name = none →
      ∀ d sub, reSearchTimer "pre_entry_climatization_timer" s.attribute_name =
        some (d, sub) →
      dictGet st.charging_profile "pre_entry_climatization_timer" = none →
      BMWConnectedDriveSensor.update s volC lenC st = UpdateResult.error) := by
  refine ⟨?_, ?_, ?_, ?_, ?_, ?_, ?_, ?_⟩
  · intro hsvc hmiss
    have hcs : s.attribute_name ≠ "charging_status" := by
      intro he
      rw [vsGetattr, if_pos (by simpa using he)] at hmiss
      simp at hmiss
    unfold BMWConnectedDriveSensor.update
    rw [if_neg (by simpa using hcs)]
    by_cases hg : s.unit_of_measurement == some VOLUME_GALLONS
    · rw [if_pos hg, hmiss]
    · rw [if_neg hg]
      by_cases hm : s.unit_of_measurement == some LENGTH_MILES
      · rw [if_pos hm, hmiss]
      · rw [if_neg hm, hsvc, hmiss]
  · intro hcs hunit hmism
    unfold BMWConnectedDriveSensor.update
    rw [if_neg (by simpa using hcs), if_pos (by simpa using hunit)]
    cases hv : vsGetattr st s.attribute_name with
    | none => rfl
    | some val => cases val <;> first | rfl | exact absurd hv (hmism _)
  · intro hcs hgal hmi hsvc hmiss
    unfold BMWConnectedDriveSensor.update
    rw [if_neg (by simpa using hcs), if_neg (by simpa using hgal),
      if_neg (by simpa using hmi), hsvc, hmiss]
    rfl
  · intro hcs hgal hmi hsvc hnostat hmiss
    unfold BMWConnectedDriveSensor.update
    rw [if_neg (by simpa using hcs), if_neg (by simpa using hgal),
      if_neg (by simpa using hmi), hsvc]
    show allTripsBranch st.all_trips s.attribute_name statAttrList = UpdateResult.error
    rw [allTripsBranch_no_match st.all_trips s.attribute_name statAttrList hnostat,
      hmiss]
  · intro hcs hgal hmi hsvc hw ht hmiss
    unfold BMWConnectedDriveSensor.update
    rw [if_neg (by simpa using hcs), if_neg (by simpa using hgal),
      if_neg (by simpa using hmi), hsvc]
    show chargingProfileBranch st.charging_profile s.attribute_name = UpdateResult.error
    unfold chargingProfileBranch
    rw [hw, ht, hmiss]
  · intro hcs hgal hmi hsvc sub hw base hbase hsubmiss
    unfold BMWConnectedDriveSensor.update
    rw [if_neg (by simpa using hcs), if_neg (by simpa using hgal),
      if_neg (by simpa using hmi), hsvc]
    show chargingProfileBranch st.charging_profile s.attribute_name = UpdateResult.error
    unfold chargingProfileBranch
    rw [hw, hbase]
    show (match objGetattr base sub with
          | some v => UpdateResult.ok v
          | none => UpdateResult.error) = UpdateResult.error
    rw [hsubmiss]
  · intro hcs hgal hmi hsvc sub hw hbase
    unfold BMWConnectedDriveSensor.update
    rw [if_neg (by simpa using hcs), if_neg (by simpa using hgal),
      if_neg (by simpa using hmi), hsvc]
    show chargingProfileBranch st.charging_profile s.attribute_name = UpdateResult.error
    unfold chargingProfileBranch
    rw [hw, hbase]
  · intro hcs hgal hmi hsvc hw d sub ht hbase
    unfold BMWConnectedDriveSensor.update
    rw [if_neg (by simpa using hcs), if_neg (by simpa using hgal),
      if_neg (by simpa using hmi), hsvc]
    show chargingProfileBranch st.charging_profile s.attribute_name = UpdateResult.error
    unfold chargingProfileBranch
    rw [hw, ht, hbase]

/-- C9 witness: a status-service sensor whose attribute is absent from an
empty state snapshot propagates the fault. -/
theorem C9_missing_field_faults_witness :
    BMWConnectedDriveSensor.update
      (mkSensor statusOnlyVehicle "mileage" ATTR_TO_HA_METRIC none)
      (timesRatio 1 1) (timesRatio 1 1) emptyState = UpdateResult.error :=
  (C9_missing_field_faults
    (mkSensor statusOnlyVehicle "mileage" ATTR_TO_HA_METRIC none)
    (timesRatio 1 1) (timesRatio 1 1) emptyState).1 rfl rfl

/-- C8: every factory-created sensor's unique id is the deterministic
function `uidOf` of its vehicle VIN, service tag and attribute key, and —
for vehicles with pairwise-distinct, `-`-free VINs and `-`-free advertised
attribute names — two factory sensors with different (vehicle, service,
attribute) triples never collide. -/
theorem C8_unique_id_injective (unitsName : String) (vehicles : List Vehicle)
    (s1 s2 : BMWConnectedDriveSensor)
    (h1 : s1 ∈ async_setup_entry unitsName vehicles)
    (h2 : s2 ∈ async_setup_entry unitsName vehicles)
    (hclean : ∀ v ∈ vehicles, noHyphen v.vin ∧ cleanAttrs v)
    (hvin : ∀ v1 ∈ vehicles, ∀ v2 ∈ vehicles, v1.vin = v2.vin → v1 = v2)
    (hne : (s1.vehicle, s1.service, s1.attribute_name) ≠
      (s2.vehicle, s2.service, s2.attribute_name)) :
    s1.uniqueId = uidOf s1.vehicle.vin s1.service s1.attribute_name ∧
    s2.uniqueId = uidOf s2.vehicle.vin s2.service s2.attribute_name ∧
    s1.uniqueId ≠ s2.uniqueId := by
  obtain ⟨v1, hv1, a1, so1, rfl, hf1, hcl1⟩ := mem_async_setup_entry h1
  obtain ⟨v2, hv2, a2, so2, rfl, hf2, hcl2⟩ := mem_async_setup_entry h2
  refine ⟨rfl, rfl, ?_⟩
  intro heq
  rw [mkSensor_uniqueId, mkSensor_uniqueId] at heq
  obtain ⟨hveq, hsoeq, haeq⟩ := uidOf_inj (hclean v1 hv1).1 (hclean v2 hv2).1
    (hcl1 (hclean v1 hv1).2) (hcl2 (hclean v2 hv2).2) hf1 hf2 heq
  have hv12 : v1 = v2 := hvin v1 hv1 v2 hv2 hveq
  apply hne
  simp only [mkSensor_vehicle, mkSensor_service, mkSensor_attr]
  rw [hv12, hsoeq, haeq]

/-- C8 witness: the two status sensors of one vehicle have distinct ids. -/
theorem C8_unique_id_injective_witness :
    (mkSensor statusOnlyVehicle "mileage" ATTR_TO_HA_METRIC none).uniqueId ≠
    (mkSensor statusOnlyVehicle "remaining_fuel" ATTR_TO_HA_METRIC none).uniqueId :=
  (C8_unique_id_injective "metric" [statusOnlyVehicle]
    (mkSensor statusOnlyVehicle "mileage" ATTR_TO_HA_METRIC none)
    (mkSensor statusOnlyVehicle "remaining_fuel" ATTR_TO_HA_METRIC none)
    (by rw [show async_setup_entry "metric" [statusOnlyVehicle] =
        [mkSensor statusOnlyVehicle "mileage" ATTR_TO_HA_METRIC none,
         mkSensor statusOnlyVehicle "remaining_fuel" ATTR_TO_HA_METRIC none] from rfl]
        exact List.mem_cons_self _ _)
    (by rw [show async_setup_entry "metric" [statusOnlyVehicle] =
        [mkSensor statusOnlyVehicle "mileage" ATTR_TO_HA_METRIC none,
         mkSensor statusOnlyVehicle "remaining_fuel" ATTR_TO_HA_METRIC none] from rfl]
        exact List.mem_cons_of_mem _ (List.mem_cons_self _ _))
    (by decide)
    (fun u hu w hw _ => by rw [List.mem_singleton.mp hu, List.mem_singleton.mp hw])
    (fun h => absurd (congrArg (fun t => t.2.2) h) (by decide))).2.2
